import Mathlib

/-!
Verification of the Resume-JD-Matching pipeline against its specification.

The program's text-processing core is embedded shallowly: text is `List Char`,
Python regular-expression searches over literal markers become explicit
left-to-right scans, external services (the OCR engine, the browser driver,
the Gemini API, the filesystem and the Prefect artifact store) become oracle
parameters, and each Python function that the claims mention becomes a Lean
definition of the same name.
-/

set_option maxRecDepth 100000

namespace ResumeJD

/-- Shorthand: the characters of a string literal. -/
def strL (s : String) : List Char := s.toList

/-- The ASCII whitespace characters recognised by Python's `str.strip()` and by
the regex class `\s` (space, tab, newline, carriage return, vertical tab,
form feed). -/
def isPySpace (c : Char) : Bool :=
  c = ' ' || c = '\t' || c = '\n' || c = '\r' || c = '\x0b' || c = '\x0c'

/-- Python `str.strip()`: remove leading and trailing whitespace. -/
def pyStrip (s : List Char) : List Char :=
  ((s.dropWhile isPySpace).reverse.dropWhile isPySpace).reverse

/-- `ciStarts m s`: the literal `m` matches at the start of `s` under
`re.IGNORECASE` (ASCII case folding via `Char.toLower`). -/
def ciStarts : List Char → List Char → Bool
  | [], _ => true
  | _ :: _, [] => false
  | c :: m, d :: s => (c.toLower == d.toLower) && ciStarts m s

/-- Index of the leftmost case-insensitive occurrence of the literal `m` in
`s`, as `re.search` locates a literal pattern. -/
def findCI (m : List Char) : List Char → Option Nat
  | [] => if ciStarts m [] then some 0 else none
  | d :: s => if ciStarts m (d :: s) then some 0 else (findCI m s).map (· + 1)

/-- `re.search(startM + "(.*?)" + endM, text, re.DOTALL | re.IGNORECASE)` for
literal markers `startM`, `endM`: at the leftmost position where `startM`
matches and `endM` occurs somewhere after it, the non-greedy group captures
the text up to the first following occurrence of `endM`. A position where
`startM` matches but no `endM` follows fails, and the scan moves one
character right, exactly as the regex engine retries. -/
def searchBetween (startM endM : List Char) : List Char → Option (List Char)
  | [] => none
  | d :: s =>
    if ciStarts startM (d :: s) then
      match findCI endM ((d :: s).drop startM.length) with
      | some j => some (((d :: s).drop startM.length).take j)
      | none => searchBetween startM endM s
    else searchBetween startM endM s

/-- Value of a decimal digit string, as Python `int` reads the regex group. -/
def digitsToNat (ds : List Char) : Nat :=
  ds.foldl (fun a c => a * 10 + (c.toNat - '0'.toNat)) 0

/-- Match of `\s*(\d{1,3})` at the start of `s`: greedy whitespace, then a
greedy run of one to three decimal digits. -/
def percDigits (s : List Char) : Option (List Char) :=
  let t := s.dropWhile isPySpace
  let ds := (t.takeWhile Char.isDigit).take 3
  if ds.isEmpty then none else some ds

/-- `re.search(marker + "\s*(\d{1,3})", text, re.IGNORECASE)`: the integer
value of the group at the leftmost position where the whole pattern matches.
A position where the marker matches but no digit follows the whitespace
fails, and the scan moves one character right. -/
def searchPerc (marker : List Char) : List Char → Option Nat
  | [] => none
  | d :: s =>
    if ciStarts marker (d :: s) then
      match percDigits ((d :: s).drop marker.length) with
      | some ds => some (digitsToNat ds)
      | none => searchPerc marker s
    else searchPerc marker s

/-- The marker `RESUME_SUMMARY:` of `gemini_analyzer.analyze_resume_jd`. -/
def RESUME_SUMMARY_M : List Char := strL "RESUME_SUMMARY:"

/-- The marker `JD_SUMMARY:`. -/
def JD_SUMMARY_M : List Char := strL "JD_SUMMARY:"

/-- The marker `REQUIREMENTS_MET:`. -/
def REQUIREMENTS_MET_M : List Char := strL "REQUIREMENTS_MET:"

/-- The marker `REQUIREMENTS_MISSING:`. -/
def REQUIREMENTS_MISSING_M : List Char := strL "REQUIREMENTS_MISSING:"

/-- The marker `PERCENTAGE_MATCH:`. -/
def PERCENTAGE_MATCH_M : List Char := strL "PERCENTAGE_MATCH:"

/-- Placeholder for an unparsable resume summary. -/
def noResumeSummary : List Char := strL "Could not parse Resume Summary."

/-- Placeholder for an unparsable job-description summary. -/
def noJdSummary : List Char := strL "Could not parse Job Description Summary."

/-- Placeholder for an unparsable requirements-met section. -/
def noMatches : List Char := strL "Could not parse Requirements Met."

/-- Placeholder for an unparsable requirements-missing section. -/
def noMisses : List Char := strL "Could not parse Requirements Missing."

/-- The analysis dictionary built by `gemini_analyzer.analyze_resume_jd`. -/
structure AnalysisResult where
  resume_summary : List Char
  jd_summary : List Char
  matchesStr : List Char
  misses : List Char
  percentage : Int
deriving DecidableEq, Repr

/-- The parsing section of `gemini_analyzer.analyze_resume_jd` (lines 121-151):
each field is the stripped text between its marker and the next marker, a
missing marker yields the field's placeholder, and the percentage is a one-
to three-digit integer after `PERCENTAGE_MATCH:`, forced to 0 when absent or
outside `[0, 100]`. -/
def parseAnalysis (text : List Char) : AnalysisResult :=
  let resume_summary := match searchBetween RESUME_SUMMARY_M JD_SUMMARY_M text with
    | some g => pyStrip g
    | none => noResumeSummary
  let jd_summary := match searchBetween JD_SUMMARY_M REQUIREMENTS_MET_M text with
    | some g => pyStrip g
    | none => noJdSummary
  let matchesStr := match searchBetween REQUIREMENTS_MET_M REQUIREMENTS_MISSING_M text with
    | some g => pyStrip g
    | none => noMatches
  let misses := match searchBetween REQUIREMENTS_MISSING_M PERCENTAGE_MATCH_M text with
    | some g => pyStrip g
    | none => noMisses
  let p : Int := match searchPerc PERCENTAGE_MATCH_M text with
    | some n => (n : Int)
    | none => 0
  let percentage := if 0 ≤ p ∧ p ≤ 100 then p else 0
  { resume_summary, jd_summary, matchesStr, misses, percentage }

/-! Concrete Gemini response texts used to instantiate the parsing claims. -/

/-- A well-formed response whose percentage section reads `PERCENTAGE_MATCH:`
followed by a newline and `85`. -/
def resp85 : List Char :=
  strL "RESUME_SUMMARY:\nA Python developer.\n\nJD_SUMMARY:\nNeeds a Python developer.\n\nREQUIREMENTS_MET:\n- Python\n\nREQUIREMENTS_MISSING:\nNone\n\nPERCENTAGE_MATCH:\n85"

/-- A response whose percentage is written `150`. -/
def resp150 : List Char :=
  strL "RESUME_SUMMARY:\nA Python developer.\n\nJD_SUMMARY:\nNeeds a Python developer.\n\nREQUIREMENTS_MET:\n- Python\n\nREQUIREMENTS_MISSING:\nNone\n\nPERCENTAGE_MATCH:\n150"

/-- A response in which the `PERCENTAGE_MATCH:` marker is missing entirely. -/
def respNoPM : List Char :=
  strL "RESUME_SUMMARY:\nA Python developer.\n\nJD_SUMMARY:\nNeeds a Python developer.\n\nREQUIREMENTS_MET:\n- Python\n\nREQUIREMENTS_MISSING:\nNone\n"

/-- A response whose percentage is written with four digits, `1000`. -/
def resp1000 : List Char :=
  strL "RESUME_SUMMARY:\nA.\nJD_SUMMARY:\nB.\nREQUIREMENTS_MET:\nNone\nREQUIREMENTS_MISSING:\nNone\nPERCENTAGE_MATCH: 1000"

/-- A response with a `RESUME_SUMMARY:` marker but no `JD_SUMMARY:` marker. -/
def respNoJD : List Char :=
  strL "RESUME_SUMMARY:\nA Python developer.\n\nREQUIREMENTS_MET:\n- Python\n\nREQUIREMENTS_MISSING:\nNone\n\nPERCENTAGE_MATCH:\n50"

/-! Lemmas on the literal-marker scans. -/

lemma findCI_none_cons {m : List Char} {d : Char} {s : List Char}
    (h : findCI m (d :: s) = none) :
    ciStarts m (d :: s) = false ∧ findCI m s = none := by
  unfold findCI at h
  cases hc : ciStarts m (d :: s) with
  | false =>
    rw [hc] at h
    simp only [if_neg Bool.false_ne_true, Option.map_eq_none'] at h
    exact ⟨rfl, h⟩
  | true => rw [hc] at h; simp at h

lemma findCI_none_drop (m : List Char) :
    ∀ t, findCI m t = none → ∀ k, findCI m (t.drop k) = none := by
  intro t
  induction t with
  | nil => intro h k; simpa using h
  | cons d s ih =>
    intro h k
    obtain ⟨_, hs⟩ := findCI_none_cons h
    cases k with
    | zero => exact h
    | succ k => rw [List.drop_succ_cons]; exact ih hs k

/-- When the start marker occurs nowhere, the two-marker search fails. -/
lemma searchBetween_none_start (s e : List Char) :
    ∀ t, findCI s t = none → searchBetween s e t = none := by
  intro t
  induction t with
  | nil => intro _; rfl
  | cons d r ih =>
    intro h
    obtain ⟨hc, hr⟩ := findCI_none_cons h
    simp only [searchBetween, hc, Bool.false_eq_true, if_neg]
    exact ih hr

/-- When the end marker occurs nowhere, the two-marker search fails even at
positions where the start marker matches. -/
lemma searchBetween_none_end (s e : List Char) :
    ∀ t, findCI e t = none → searchBetween s e t = none := by
  intro t
  induction t with
  | nil => intro _; rfl
  | cons d r ih =>
    intro h
    have hr : findCI e r = none := (findCI_none_cons h).2
    cases hc : ciStarts s (d :: r) with
    | false =>
      simp only [searchBetween, hc, Bool.false_eq_true, if_neg]
      exact ih hr
    | true =>
      have hdrop : findCI e ((d :: r).drop s.length) = none :=
        findCI_none_drop e (d :: r) h s.length
      simp only [searchBetween, hc, if_pos, hdrop]
      exact ih hr

lemma findCI_cons_of_neg {m : List Char} {d : Char} {s : List Char}
    (hc : ciStarts m (d :: s) = false) :
    findCI m (d :: s) = (findCI m s).map (· + 1) := by
  simp [findCI, hc]

/-- At the first occurrence of the start marker, when the end marker occurs
after it, the two-marker search returns exactly the text between the end of
the start marker and the first following occurrence of the end marker. -/
lemma searchBetween_of_findCI (s e : List Char) (hs : s ≠ []) :
    ∀ t i j, findCI s t = some i →
    findCI e (t.drop (i + s.length)) = some j →
    searchBetween s e t = some ((t.drop (i + s.length)).take j) := by
  intro t
  induction t with
  | nil =>
    intro i j h1 _
    exfalso
    have hcs : ciStarts s [] = false := by
      cases s with
      | nil => exact absurd rfl hs
      | cons a b => rfl
    simp [findCI, hcs] at h1
  | cons d r ih =>
    intro i j h1 h2
    cases hc : ciStarts s (d :: r) with
    | true =>
      have hi : i = 0 := by
        unfold findCI at h1
        rw [hc] at h1
        simpa using h1.symm
      subst hi
      rw [Nat.zero_add] at h2
      simp only [searchBetween, hc, if_pos, h2, Nat.zero_add]
    | false =>
      rw [findCI_cons_of_neg hc] at h1
      obtain ⟨i', hi', rfl⟩ := Option.map_eq_some'.mp h1
      have harith : i' + 1 + s.length = (i' + s.length) + 1 := by omega
      rw [harith, List.drop_succ_cons] at h2 ⊢
      simp only [searchBetween, hc, Bool.false_eq_true, if_neg]
      exact ih i' j hi' h2

/-! The Text Extractor (`ocr_utils.py`). The filesystem and the OCR engine
are external collaborators, passed in as oracles. -/

/-- Python `str.lower()` (ASCII). -/
def pyLower (s : List Char) : List Char := s.map Char.toLower

/-- `os.path.basename` on a POSIX path: everything after the last slash. -/
def pyBasename (p : List Char) : List Char :=
  (p.reverse.takeWhile (fun c => c ≠ '/')).reverse

/-- The extension part of `os.path.splitext(p)`: starts at the last dot of the
basename, unless that dot lies in the basename's leading run of dots (so a
dotfile such as `.bashrc` has no extension). -/
def splitextExtension (p : List Char) : List Char :=
  let b := pyBasename p
  let tail := b.reverse.takeWhile (fun c => c ≠ '.')
  if tail.length = b.length then []
  else
    let stem := b.take (b.length - tail.length - 1)
    if stem.any (fun c => c ≠ '.') then b.drop (b.length - tail.length - 1) else []

/-- The failures `ocr_utils.extract_text_from_file` can raise:
`FileNotFoundError`, or `OCRError` (which also covers the unsupported-format
case and every engine failure). -/
inductive ExtractErr where
  | fileNotFound (msg : List Char)
  | ocrError (msg : List Char)
deriving DecidableEq, Repr

/-- The image extensions dispatched to `_perform_image_ocr`. -/
def imageExts : List (List Char) :=
  [strL ".png", strL ".jpg", strL ".jpeg", strL ".tiff", strL ".tif",
    strL ".bmp", strL ".gif"]

/-- `ocr_utils.extract_text_from_file` (lines 116-145): the existence check
comes first, then the dispatch on the lowered extension; an unrecognized
extension raises `OCRError("Unsupported file type: ...")`. `fsExists` is the
filesystem oracle (`os.path.exists`); `pdfOcr` and `imgOcr` are the outcomes
of `_perform_pdf_ocr` and `_perform_image_ocr`, which raise only `OCRError`. -/
def extract_text_from_file (fsExists : List Char → Bool)
    (pdfOcr imgOcr : List Char → Except (List Char) (List Char))
    (file_path : List Char) : Except ExtractErr (List Char) :=
  if fsExists file_path = false then
    .error (.fileNotFound (strL "Input file not found: " ++ file_path))
  else
    let ext := pyLower (splitextExtension file_path)
    if ext = strL ".pdf" then
      match pdfOcr file_path with
      | .ok t => .ok t
      | .error m => .error (.ocrError m)
    else if imageExts.contains ext then
      match imgOcr file_path with
      | .ok t => .ok t
      | .error m => .error (.ocrError m)
    else
      .error (.ocrError (strL "Unsupported file type: '" ++ ext ++
        strL "'. Please use PDF or common image formats."))

/-- The outcome of OCR on one page inside `_perform_pdf_ocr`'s loop: the
recognized text, a `pytesseract.TesseractError`, or any other exception. -/
inductive PageOutcome where
  | ok (text : List Char)
  | tesseractErr (msg : List Char)
  | pageErr (msg : List Char)
deriving DecidableEq, Repr

/-- Decimal rendering of a number, as Python string formatting writes it. -/
def natDigits (n : Nat) : List Char := (Nat.repr n).toList

/-- One iteration of `_perform_pdf_ocr`'s page loop (lines 66-94): a page with
text contributes a page-boundary header and its text, a blank page
contributes nothing, and a failed page contributes an inline error marker. -/
def pageContent (num_pages page_num : Nat) : PageOutcome → List Char
  | .ok t =>
    if (pyStrip t).isEmpty then []
    else strL "\n--- Page " ++ natDigits (page_num + 1) ++ strL "/" ++
      natDigits num_pages ++ strL " ---\n" ++ t
  | .tesseractErr _ =>
    strL "\n--- TESSERACT ERROR ON PAGE " ++ natDigits (page_num + 1) ++ strL " ---"
  | .pageErr _ =>
    strL "\n--- ERROR PROCESSING PAGE " ++ natDigits (page_num + 1) ++ strL " ---"

/-- The concatenation `"".join(all_page_texts)` of the loop's contributions,
starting at 0-based page index `start`. -/
def renderPages (num_pages start : Nat) : List PageOutcome → List Char
  | [] => []
  | p :: ps => pageContent num_pages start p ++ renderPages num_pages (start + 1) ps

/-- `ocr_utils._perform_pdf_ocr` (lines 54-99) over the per-page outcomes of a
document that opened successfully: a 0-page document yields the empty string,
otherwise the stripped concatenation of every page's contribution. -/
def perform_pdf_ocr (pages : List PageOutcome) : List Char :=
  if pages.length = 0 then [] else pyStrip (renderPages pages.length 0 pages)

lemma renderPages_append (n : Nat) :
    ∀ (xs ys : List PageOutcome) (s : Nat),
      renderPages n s (xs ++ ys) = renderPages n s xs ++ renderPages n (s + xs.length) ys := by
  intro xs
  induction xs with
  | nil => intro ys s; simp [renderPages]
  | cons x xs ih =>
    intro ys s
    show pageContent n s x ++ renderPages n (s + 1) (xs ++ ys) =
      (pageContent n s x ++ renderPages n (s + 1) xs) ++ renderPages n (s + (x :: xs).length) ys
    rw [ih, List.append_assoc, List.length_cons]
    have h : s + (xs.length + 1) = s + 1 + xs.length := by omega
    rw [h]

/-! The Listing Fetcher (`scraping_utils.py`). `urllib.parse` is modelled for
absolute `scheme://netloc/path?query#fragment` URLs; the Selenium driver is
an oracle, and the session lifecycle is recorded as a trace of events. -/

/-- Split at the first occurrence of `sep`: `(before, after)`, with
`(s, [])` when `sep` does not occur. -/
def splitFirst (sep : Char) (s : List Char) : List Char × List Char :=
  let pre := s.takeWhile (fun c => c ≠ sep)
  if pre.length = s.length then (s, []) else (pre, s.drop (pre.length + 1))

/-- Index of the leftmost (case-sensitive) occurrence of `m` in `s`. -/
def findSub (m : List Char) : List Char → Option Nat
  | [] => if List.isPrefixOf m ([] : List Char) then some 0 else none
  | d :: s => if List.isPrefixOf m (d :: s) then some 0 else (findSub m s).map (· + 1)

/-- Python's substring containment `m in s`. -/
def occursSub (m s : List Char) : Bool := (findSub m s).isSome

/-- The components of `urllib.parse.urlparse` that the fetcher reads. -/
structure UrlParts where
  scheme : List Char
  netloc : List Char
  path : List Char
  query : List Char
deriving DecidableEq, Repr

/-- `urllib.parse.urlparse`, modelled for the URLs the fetcher handles: the
fragment is cut at the first `#`, the scheme is the (lowered) text before
`://`, the netloc runs to the next `/` or `?`, and the query follows the
first `?` after the path. A URL with no `://` has empty scheme and netloc. -/
def urlparse (url : List Char) : UrlParts :=
  let beforeFrag := (splitFirst '#' url).1
  match findSub (strL "://") beforeFrag with
  | some i =>
    let scheme := beforeFrag.take i
    let rest := beforeFrag.drop (i + 3)
    let netloc := rest.takeWhile (fun c => c ≠ '/' && c ≠ '?')
    let rest2 := rest.drop netloc.length
    let pq := splitFirst '?' rest2
    { scheme := pyLower scheme, netloc := netloc, path := pq.1, query := pq.2 }
  | none =>
    let pq := splitFirst '?' beforeFrag
    { scheme := [], netloc := [], path := pq.1, query := pq.2 }

/-- Split on every occurrence of `sep`, as Python `str.split(sep)`. -/
def splitOnChar (sep : Char) : List Char → List (List Char)
  | [] => [[]]
  | c :: s =>
    let r := splitOnChar sep s
    if c = sep then [] :: r
    else
      match r with
      | [] => [[c]]
      | h :: t => (c :: h) :: t

/-- `urllib.parse.parse_qs(q).get(key, [])`: the values of `key` among the
`&`-separated `k=v` pairs of the query string; pairs without `=` and pairs
with an empty value are dropped (`keep_blank_values=False`). Percent
decoding is not modelled (the job identifiers at issue are plain digits). -/
def parse_qs_get (key q : List Char) : List (List Char) :=
  (splitOnChar '&' q).filterMap (fun kv =>
    let pre := kv.takeWhile (fun c => c ≠ '=')
    if pre.length = kv.length then none
    else
      let v := kv.drop (pre.length + 1)
      if v.isEmpty then none
      else if pre = key then some v else none)

/-- Outcome of the URL-normalization prologue of
`scrape_linkedin_job_description` (lines 113-130). -/
inductive UrlCheck where
  | ok (target : List Char)
  | invalid (msg : List Char)
deriving DecidableEq, Repr

/-- The URL-normalization prologue of `scrape_linkedin_job_description`:
domain check, rewrite of a `jobs/search` URL to a `jobs/view` URL via the
`currentJobId` query parameter, rejection when that parameter is missing or
the path is neither form. Every `ValueError` is re-raised wrapped in the
`Invalid LinkedIn URL format:` message. -/
def checkLinkedinUrl (url : List Char) : UrlCheck :=
  let u := urlparse url
  if occursSub (strL "linkedin.com") u.netloc = false then
    .invalid (strL "Invalid LinkedIn URL format: URL does not appear to be a valid LinkedIn URL.")
  else if List.isPrefixOf (strL "/jobs/search/") u.path then
    match parse_qs_get (strL "currentJobId") u.query with
    | [] => .invalid (strL "Invalid LinkedIn URL format: Search URL provided, but 'currentJobId' parameter is missing.")
    | job_id :: _ => .ok (strL "https://www.linkedin.com/jobs/view/" ++ job_id ++ strL "/")
  else if List.isPrefixOf (strL "/jobs/view/") u.path then
    .ok url
  else
    .invalid (strL "Invalid LinkedIn URL format: URL does not appear to be a LinkedIn jobs/search or jobs/view URL.")

/-- Lifecycle events of one fetch call's browser session. -/
inductive ScrapeEvent where
  | driverCreated
  | screenshotTried (ok : Bool)
  | driverQuit
deriving DecidableEq, Repr

/-- How the driven browser session can fail: a
Timeout/NoSuchElement/StaleElementReference exception, or any other. -/
inductive SelFail where
  | elementErr (msg : List Char)
  | otherErr (msg : List Char)
deriving DecidableEq, Repr

/-- The errors `scrape_linkedin_job_description` raises: `ValueError` from
URL validation, `ScrapingError` from everything else. -/
inductive ScrapeErr where
  | valueError (msg : List Char)
  | scrapingError (msg : List Char)
deriving DecidableEq, Repr

/-- Oracle for one fetch call: whether `CHROMEDRIVER_PATH` is set and exists
(and how it prints), whether `webdriver.Chrome` construction succeeds, the
outcome of the driven navigation/extraction body, and whether the
best-effort failure screenshot succeeds. -/
structure ScrapeEnv where
  chromedriverOk : Bool
  driverPathRepr : List Char
  driverCreate : Except (List Char) Unit
  body : Except SelFail (List Char)
  screenshotOk : Bool

/-- The `ChromeDriver path ... is invalid or not found` message (lines
146-149). -/
def chromedriverMsg (pathRepr : List Char) : List Char :=
  strL "ChromeDriver path specified in .env (CHROMEDRIVER_PATH) is invalid or not found: " ++
    pathRepr ++ strL ". Ensure the path is correct."

/-- The wrapper applied by the catch-all handler (lines 217-224). -/
def unexpectedWrap (target e : List Char) : List Char :=
  strL "An unexpected error occurred during scraping of " ++ target ++ strL ": " ++ e

/-- The wrapper applied by the element-failure handler (lines 209-216). -/
def elementWrap (target e : List Char) : List Char :=
  strL "Failed to find or interact with required elements on " ++ target ++
    strL ". Error: " ++ e

/-- `scrape_linkedin_job_description` (lines 96-227): validation first (no
session yet), then the guarded body whose `finally` quits the driver
whenever one was created; element failures and unexpected failures are
wrapped into `ScrapingError` after a best-effort screenshot. A failure
before `webdriver.Chrome` returns leaves `driver` as `None`, so neither a
screenshot nor a quit happens on that path. -/
def scrape_linkedin_job_description (env : ScrapeEnv) (url : List Char) :
    Except ScrapeErr (List Char) × List ScrapeEvent :=
  match checkLinkedinUrl url with
  | .invalid m => (.error (.valueError m), [])
  | .ok target_url =>
    if env.chromedriverOk = false then
      (.error (.scrapingError (unexpectedWrap target_url (chromedriverMsg env.driverPathRepr))), [])
    else
      match env.driverCreate with
      | .error m => (.error (.scrapingError (unexpectedWrap target_url m)), [])
      | .ok _ =>
        match env.body with
        | .ok text => (.ok text, [.driverCreated, .driverQuit])
        | .error (.elementErr m) =>
          (.error (.scrapingError (elementWrap target_url m)),
            [.driverCreated, .screenshotTried env.screenshotOk, .driverQuit])
        | .error (.otherErr m) =>
          (.error (.scrapingError (unexpectedWrap target_url m)),
            [.driverCreated, .screenshotTried env.screenshotOk, .driverQuit])

/-! The Orchestrator (`prefect_flow.resume_analyzer_flow`). The tasks it
sequences are oracles giving each external step's final outcome (the one
automatic Prefect retry is transparent to the flow); the best-effort
artifact calls are a separate oracle record whose values the flow only
logs. The trace records, in order, each task invocation and each artifact
attempt. -/

/-- The JD-input classification of lines 182: the stripped input starts with
`http://` or `https://`. -/
def is_jd_url (jd_input : List Char) : Bool :=
  List.isPrefixOf (strL "http://") (pyStrip jd_input) ||
    List.isPrefixOf (strL "https://") (pyStrip jd_input)

/-- What one run of the flow observably does, in order. -/
inductive FlowEvent where
  | ocrRun (path : List Char)
  | scrapeRun (url : List Char)
  | analysisRun
  | artifactTried (ok : Bool)
deriving DecidableEq, Repr

/-- The two shapes the flow returns: the parsed analysis dictionary, or a
dictionary holding the single `error` string. -/
inductive FlowOutcome where
  | success (r : AnalysisResult)
  | failure (msg : List Char)
deriving DecidableEq, Repr

/-- Oracle outcomes of the external steps one flow run performs. -/
structure FlowEnv where
  jdExists : Bool
  resumeExtract : Except ExtractErr (List Char)
  jdExtract : Except ExtractErr (List Char)
  jdScrape : Except (List Char) (List Char)
  analysis : Except (List Char) AnalysisResult

/-- Oracle outcomes of the best-effort artifact-reporting calls. -/
structure FlowArts where
  inputOk : Bool
  resumePreviewOk : Bool
  jdPreviewOk : Bool
  geminiRawOk : Bool
  geminiErrOk : Bool
  summaryOk : Bool

/-- `prefect_flow.ocr_task` (lines 46-69) around an extraction outcome:
empty-after-strip text becomes the empty string, errors re-raise. -/
def ocr_task (r : Except ExtractErr (List Char)) : Except ExtractErr (List Char) :=
  match r with
  | .ok t => if (pyStrip t).isEmpty then .ok [] else .ok t
  | .error e => .error e

/-- `prefect_flow.scrape_task` (lines 72-97) around a scraping outcome. -/
def scrape_task (r : Except (List Char) (List Char)) : Except (List Char) (List Char) :=
  match r with
  | .ok t => if (pyStrip t).isEmpty then .ok [] else .ok t
  | .error e => .error e

/-- Failure message of line 189. -/
def invalidJdMsg (jd : List Char) : List Char :=
  strL "Invalid Job Description input: '" ++ jd ++ strL "' is not a valid URL or file path."

/-- Failure message of line 238. -/
def resumeFailMsg (b : List Char) : List Char :=
  strL "Failed to process Resume '" ++ b ++ strL "'. Check logs."

/-- Failure message of line 276. -/
def jdFailMsg (d : List Char) : List Char :=
  strL "Failed to process Job Description from '" ++ d ++ strL "'. Check logs."

/-- Failure message of line 281. -/
def resumeEmptyMsg (b : List Char) : List Char :=
  strL "Resume '" ++ b ++ strL "' text is empty after OCR."

/-- Failure message of line 284. -/
def jdEmptyMsg (d : List Char) : List Char :=
  strL "Job Description text from '" ++ d ++ strL "' is empty after processing."

/-- Failure message of line 331. -/
def analysisFailMsg : List Char :=
  strL "Analysis task failed. Check logs and 'gemini-error-info' artifact."

/-- `prefect_flow.resume_analyzer_flow` (lines 156-331): classify the JD
input (an input that is neither a URL nor an existing file fails before any
other work); run resume OCR, then JD scraping or OCR, validate both texts
non-empty (resume first), run the analysis; every task failure collapses to
a single error dictionary, and every artifact attempt is recorded in the
trace but influences nothing else. -/
def resume_analyzer_flow (env : FlowEnv) (arts : FlowArts)
    (resume_path jd_input : List Char) : FlowOutcome × List FlowEvent :=
  let resume_basename := pyBasename resume_path
  if !is_jd_url jd_input && !env.jdExists then
    (.failure (invalidJdMsg jd_input), [])
  else
    let jd_source_display :=
      if is_jd_url jd_input then pyStrip jd_input else pyBasename jd_input
    let ev0 := [FlowEvent.artifactTried arts.inputOk]
    match ocr_task env.resumeExtract with
    | .error _ => (.failure (resumeFailMsg resume_basename), ev0 ++ [.ocrRun resume_path])
    | .ok resume_text =>
      let ev1 := ev0 ++ [FlowEvent.ocrRun resume_path] ++
        (if (pyStrip resume_text).isEmpty then []
          else [FlowEvent.artifactTried arts.resumePreviewOk])
      let jdStep :=
        if is_jd_url jd_input then
          (match scrape_task env.jdScrape with
            | .ok t => Except.ok t
            | .error _ => Except.error (),
            FlowEvent.scrapeRun (pyStrip jd_input))
        else
          (match ocr_task env.jdExtract with
            | .ok t => Except.ok t
            | .error _ => Except.error (),
            FlowEvent.ocrRun jd_input)
      match jdStep.1 with
      | .error _ => (.failure (jdFailMsg jd_source_display), ev1 ++ [jdStep.2])
      | .ok jd_text =>
        let ev2 := ev1 ++ [jdStep.2] ++
          (if (pyStrip jd_text).isEmpty then []
            else [FlowEvent.artifactTried arts.jdPreviewOk])
        if (pyStrip resume_text).isEmpty then
          (.failure (resumeEmptyMsg resume_basename), ev2)
        else if (pyStrip jd_text).isEmpty then
          (.failure (jdEmptyMsg jd_source_display), ev2)
        else
          match env.analysis with
          | .ok r =>
            (.success r, ev2 ++ [FlowEvent.analysisRun,
              FlowEvent.artifactTried arts.geminiRawOk,
              FlowEvent.artifactTried arts.summaryOk])
          | .error _ =>
            (.failure analysisFailMsg,
              ev2 ++ [FlowEvent.analysisRun, FlowEvent.artifactTried arts.geminiErrOk])

/-! Theorems for the claims about the Analyzer's marker parsing. -/

/-- C1 (counterexample): on the concrete response `respNoJD` the
`RESUME_SUMMARY:` marker is present (at index 0) and the `JD_SUMMARY:`
marker is absent, yet the parsed resume summary is the placeholder
`Could not parse Resume Summary.` and not the text between
`RESUME_SUMMARY:` and the next present marker (`A Python developer.`),
refuting the claim that the resume summary still parses correctly. -/
theorem c1_resume_summary_counterexample :
    findCI RESUME_SUMMARY_M respNoJD = some 0 ∧
    findCI JD_SUMMARY_M respNoJD = none ∧
    (parseAnalysis respNoJD).resume_summary = noResumeSummary ∧
    (parseAnalysis respNoJD).resume_summary ≠ strL "A Python developer." := by
  refine ⟨by decide, by decide, by decide, by decide⟩

/-- C1 (amended): for every response text in which the `JD_SUMMARY:` marker
does not occur (case-insensitively), the parse sets `jd_summary` to the
placeholder `Could not parse Job Description Summary.` and also sets
`resume_summary` to its placeholder, because the resume pattern needs
`JD_SUMMARY:` as its end delimiter; the requirements-met and
requirements-missing fields still parse to the stripped text between the
first occurrence of their own start marker and the first following
occurrence of their end marker whenever those are present. -/
theorem c1_jd_marker_absent_parse (text : List Char)
    (h : findCI JD_SUMMARY_M text = none) :
    (parseAnalysis text).jd_summary = noJdSummary ∧
    (parseAnalysis text).resume_summary = noResumeSummary ∧
    (∀ i j, findCI REQUIREMENTS_MET_M text = some i →
      findCI REQUIREMENTS_MISSING_M (text.drop (i + REQUIREMENTS_MET_M.length)) = some j →
      (parseAnalysis text).matchesStr =
        pyStrip ((text.drop (i + REQUIREMENTS_MET_M.length)).take j)) ∧
    (∀ i j, findCI REQUIREMENTS_MISSING_M text = some i →
      findCI PERCENTAGE_MATCH_M (text.drop (i + REQUIREMENTS_MISSING_M.length)) = some j →
      (parseAnalysis text).misses =
        pyStrip ((text.drop (i + REQUIREMENTS_MISSING_M.length)).take j)) := by
  refine ⟨?_, ?_, ?_, ?_⟩
  · have hn := searchBetween_none_start JD_SUMMARY_M REQUIREMENTS_MET_M text h
    simp [parseAnalysis, hn]
  · have hn := searchBetween_none_end RESUME_SUMMARY_M JD_SUMMARY_M text h
    simp [parseAnalysis, hn]
  · intro i j h1 h2
    have hb := searchBetween_of_findCI REQUIREMENTS_MET_M REQUIREMENTS_MISSING_M
      (by decide) text i j h1 h2
    simp [parseAnalysis, hb]
  · intro i j h1 h2
    have hb := searchBetween_of_findCI REQUIREMENTS_MISSING_M PERCENTAGE_MATCH_M
      (by decide) text i j h1 h2
    simp [parseAnalysis, hb]

/-- C1 (witness): the amended theorem applied to the concrete response
`respNoJD`, whose `JD_SUMMARY:` marker is absent. -/
theorem c1_jd_marker_absent_parse_witness :
    findCI JD_SUMMARY_M respNoJD = none ∧
    (parseAnalysis respNoJD).jd_summary = noJdSummary ∧
    (parseAnalysis respNoJD).resume_summary = noResumeSummary :=
  ⟨by decide, (c1_jd_marker_absent_parse respNoJD (by decide)).1,
    (c1_jd_marker_absent_parse respNoJD (by decide)).2.1⟩

/-- C2: the percentage field is the value parsed by
`PERCENTAGE_MATCH:\s*(\d{1,3})`; a missing match or a parsed value outside
`[0, 100]` yields 0, an in-range value is kept; in particular the concrete
response containing `PERCENTAGE_MATCH:` + newline + `85` parses to 85, and
responses with `150` or with no marker parse to 0. -/
theorem c2_percentage_parse :
    (∀ t, searchPerc PERCENTAGE_MATCH_M t = none → (parseAnalysis t).percentage = 0) ∧
    (∀ t n, searchPerc PERCENTAGE_MATCH_M t = some n → 100 < n →
      (parseAnalysis t).percentage = 0) ∧
    (∀ t n, searchPerc PERCENTAGE_MATCH_M t = some n → n ≤ 100 →
      (parseAnalysis t).percentage = (n : Int)) ∧
    (parseAnalysis resp85).percentage = 85 ∧
    (parseAnalysis resp150).percentage = 0 ∧
    (parseAnalysis respNoPM).percentage = 0 := by
  refine ⟨?_, ?_, ?_, by decide, by decide, by decide⟩
  · intro t h
    simp [parseAnalysis, h]
  · intro t n h h100
    have hlt : ¬((n : Int) ≤ 100) := by exact_mod_cast Nat.not_le.mpr h100
    simp [parseAnalysis, h, hlt]
  · intro t n h h100
    have hle : (n : Int) ≤ 100 := by exact_mod_cast h100
    simp [parseAnalysis, h, hle]

/-- C2 (witness): the general missing-marker and out-of-range cases of
`c2_percentage_parse` discharged at the concrete responses `respNoPM`
and `resp150`. -/
theorem c2_percentage_parse_witness :
    (parseAnalysis respNoPM).percentage = 0 ∧ (parseAnalysis resp150).percentage = 0 :=
  ⟨c2_percentage_parse.1 respNoPM (by decide),
    c2_percentage_parse.2.1 resp150 150 (by decide) (by decide)⟩

/-- C10: every parsed result's percentage lies in `[0, 100]`, and the parser
captures at most the first three digits after `PERCENTAGE_MATCH:`, so the
concrete response written `PERCENTAGE_MATCH: 1000` parses to 100 (the value
of its first three digits) rather than 0. -/
theorem c10_percentage_range :
    (∀ t, 0 ≤ (parseAnalysis t).percentage ∧ (parseAnalysis t).percentage ≤ 100) ∧
    (parseAnalysis resp1000).percentage = 100 := by
  refine ⟨?_, by decide⟩
  intro t
  simp only [parseAnalysis]
  split
  · next h => exact h
  · exact ⟨le_refl 0, by norm_num⟩

/-- C5: for every filesystem oracle, every pair of OCR-engine oracles and
every file path reported non-existent, `extract_text_from_file` fails with
`FileNotFoundError` carrying the exact message of the source, and with no
other error kind: the existence check precedes the extension dispatch. -/
theorem c5_missing_file_is_file_not_found (fsExists : List Char → Bool)
    (pdfOcr imgOcr : List Char → Except (List Char) (List Char))
    (p : List Char) (h : fsExists p = false) :
    extract_text_from_file fsExists pdfOcr imgOcr p =
      .error (.fileNotFound (strL "Input file not found: " ++ p)) := by
  simp [extract_text_from_file, h]

/-- C5 (witness): the theorem applied to a non-existent path with an
unrecognized extension, which still yields `FileNotFound`, not the
unsupported-format error. -/
theorem c5_missing_file_witness :
    extract_text_from_file (fun _ => false) (fun _ => .ok []) (fun _ => .ok [])
      (strL "missing.xyz") =
      .error (.fileNotFound (strL "Input file not found: missing.xyz")) :=
  (c5_missing_file_is_file_not_found (fun _ => false) (fun _ => .ok [])
    (fun _ => .ok []) (strL "missing.xyz") rfl).trans (by
      have h : strL "Input file not found: " ++ strL "missing.xyz" =
          strL "Input file not found: missing.xyz" := by decide
      rw [h])

/-- C8: a recognition failure on one page of a multi-page document does not
abort the extraction: whether the page raised a Tesseract error or any other
exception, its contribution to the concatenated output is exactly the inline
error marker naming its 1-based page number, and the pages before and after
it still contribute their rendered text around it. -/
theorem c8_page_failure_degrades (pre post : List PageOutcome) (m1 m2 : List Char) :
    perform_pdf_ocr (pre ++ PageOutcome.tesseractErr m1 :: post) =
      pyStrip (renderPages (pre.length + 1 + post.length) 0 pre ++
        (strL "\n--- TESSERACT ERROR ON PAGE " ++ natDigits (pre.length + 1) ++
          strL " ---") ++
        renderPages (pre.length + 1 + post.length) (pre.length + 1) post) ∧
    perform_pdf_ocr (pre ++ PageOutcome.pageErr m2 :: post) =
      pyStrip (renderPages (pre.length + 1 + post.length) 0 pre ++
        (strL "\n--- ERROR PROCESSING PAGE " ++ natDigits (pre.length + 1) ++
          strL " ---") ++
        renderPages (pre.length + 1 + post.length) (pre.length + 1) post) := by
  have hlen : ∀ x : PageOutcome, (pre ++ x :: post).length = pre.length + 1 + post.length := by
    intro x; simp [List.length_append]; omega
  constructor
  · rw [perform_pdf_ocr, hlen, if_neg (by omega)]
    rw [renderPages_append (pre.length + 1 + post.length) pre
      (PageOutcome.tesseractErr m1 :: post) 0]
    show pyStrip (_ ++ (pageContent _ _ _ ++ _)) = _
    simp only [pageContent, Nat.zero_add, List.append_assoc]
  · rw [perform_pdf_ocr, hlen, if_neg (by omega)]
    rw [renderPages_append (pre.length + 1 + post.length) pre
      (PageOutcome.pageErr m2 :: post) 0]
    show pyStrip (_ ++ (pageContent _ _ _ ++ _)) = _
    simp only [pageContent, Nat.zero_add, List.append_assoc]

lemma pyStrip_nil : pyStrip [] = [] := rfl

lemma ocr_task_ok (t : List Char) :
    ocr_task (.ok t) = if (pyStrip t).isEmpty then .ok [] else .ok t := rfl

/-- C3: for every oracle environment, the flow's returned outcome is one of
exactly two shapes — a parsed analysis result or a single error-message
dictionary (the flow is a total function into that sum, so no exception
reaches the caller) — and the outcome is identical under any two outcomes of
the auxiliary artifact-reporting calls: their failures are swallowed and
never change the result or abort the pipeline. -/
theorem c3_flow_outcome_shape_and_artifact_independence (env : FlowEnv)
    (a a' : FlowArts) (rp jd : List Char) :
    (resume_analyzer_flow env a rp jd).1 = (resume_analyzer_flow env a' rp jd).1 ∧
    ((∃ r, (resume_analyzer_flow env a rp jd).1 = .success r) ∨
      (∃ m, (resume_analyzer_flow env a rp jd).1 = .failure m)) := by
  constructor
  · cases hurl : is_jd_url jd <;> cases hex : env.jdExists <;>
      cases hre : ocr_task env.resumeExtract <;>
      cases hjs : scrape_task env.jdScrape <;> cases hjo : ocr_task env.jdExtract <;>
      cases han : env.analysis <;>
      simp [resume_analyzer_flow, hurl, hex, hre, hjs, hjo, han] <;>
      split_ifs <;> simp_all
  · cases h2 : (resume_analyzer_flow env a rp jd).1 with
    | success r => exact Or.inl ⟨r, rfl⟩
    | failure m => exact Or.inr ⟨m, rfl⟩

/-- C4: when both the resume and the JD are files whose extraction succeeds
with whitespace-only text, the flow fails with the message citing the
resume: the resume emptiness check of the validation block comes before the
JD emptiness check. -/
theorem c4_both_empty_cites_resume (env : FlowEnv) (arts : FlowArts)
    (rp jd r j : List Char)
    (hurl : is_jd_url jd = false) (hex : env.jdExists = true)
    (hres : env.resumeExtract = .ok r) (hre : pyStrip r = [])
    (hjd : env.jdExtract = .ok j) (hje : pyStrip j = []) :
    (resume_analyzer_flow env arts rp jd).1 =
      .failure (resumeEmptyMsg (pyBasename rp)) := by
  simp [resume_analyzer_flow, hurl, hex, hres, hjd, ocr_task_ok, hre, hje, pyStrip_nil]

/-- C4 (witness): the theorem applied to concrete file paths and an
environment in which both extractions return the empty string. -/
theorem c4_both_empty_cites_resume_witness :
    (resume_analyzer_flow ⟨true, .ok [], .ok [], .ok [], .error []⟩
      ⟨true, true, true, true, true, true⟩
      (strL "uploads/resume.pdf") (strL "uploads/jd.pdf")).1 =
      .failure (resumeEmptyMsg (pyBasename (strL "uploads/resume.pdf"))) :=
  c4_both_empty_cites_resume ⟨true, .ok [], .ok [], .ok [], .error []⟩
    ⟨true, true, true, true, true, true⟩
    (strL "uploads/resume.pdf") (strL "uploads/jd.pdf") [] []
    (by decide) rfl rfl rfl rfl rfl

/-- C7: the flow classifies the JD input as a URL exactly when the stripped
input begins with `http://` or `https://`; an input that is neither such a
URL nor an existing file makes the flow fail at once with the invalid-input
message and an empty trace (no extraction, scraping or analysis work, and no
artifact attempt, has begun); a URL input is routed to the scraper and never
to OCR (every OCR invocation is for the resume path), and a file input is
routed to OCR and never to the scraper. -/
theorem c7_jd_source_classification (env : FlowEnv) (arts : FlowArts)
    (rp jd : List Char) :
    (is_jd_url jd = false → env.jdExists = false →
      resume_analyzer_flow env arts rp jd = (.failure (invalidJdMsg jd), [])) ∧
    (∀ r, is_jd_url jd = true → env.resumeExtract = .ok r →
      FlowEvent.scrapeRun (pyStrip jd) ∈ (resume_analyzer_flow env arts rp jd).2 ∧
      ∀ p, FlowEvent.ocrRun p ∈ (resume_analyzer_flow env arts rp jd).2 → p = rp) ∧
    (∀ r, is_jd_url jd = false → env.jdExists = true → env.resumeExtract = .ok r →
      FlowEvent.ocrRun jd ∈ (resume_analyzer_flow env arts rp jd).2 ∧
      ∀ u, FlowEvent.scrapeRun u ∉ (resume_analyzer_flow env arts rp jd).2) := by
  refine ⟨?_, ?_, ?_⟩
  · intro h1 h2
    simp [resume_analyzer_flow, h1, h2]
  · intro r hurl hres
    cases hjs : scrape_task env.jdScrape <;> cases han : env.analysis <;>
      simp [resume_analyzer_flow, hurl, hres, hjs, han, ocr_task_ok, pyStrip_nil] <;>
      split_ifs <;> simp_all [pyStrip_nil]
  · intro r hurl hex hres
    cases hjo : ocr_task env.jdExtract <;> cases han : env.analysis <;>
      simp [resume_analyzer_flow, hurl, hex, hres, hjo, han, ocr_task_ok, pyStrip_nil] <;>
      split_ifs <;> simp_all [pyStrip_nil]

/-- C7 (witness): the fail-fast case of the theorem at a concrete JD input
that is neither a URL nor an existing file. -/
theorem c7_jd_source_classification_witness :
    resume_analyzer_flow ⟨false, .ok (strL "resume text"), .ok [], .ok [], .error []⟩
      ⟨true, true, true, true, true, true⟩
      (strL "uploads/resume.pdf") (strL "no-such-file.txt") =
      (.failure (invalidJdMsg (strL "no-such-file.txt")), []) :=
  (c7_jd_source_classification ⟨false, .ok (strL "resume text"), .ok [], .ok [], .error []⟩
    ⟨true, true, true, true, true, true⟩
    (strL "uploads/resume.pdf") (strL "no-such-file.txt")).1 (by decide) rfl

/-- C6: for every driver oracle and every URL on the LinkedIn domain whose
path is of the `jobs/search` form but whose query string has no
`currentJobId` parameter, the fetch fails with the `ValueError` naming the
missing parameter, and its event trace is empty: no browser session is
created or opened. -/
theorem c6_search_url_without_job_id (env : ScrapeEnv) (url : List Char)
    (hdom : occursSub (strL "linkedin.com") (urlparse url).netloc = true)
    (hpath : List.isPrefixOf (strL "/jobs/search/") (urlparse url).path = true)
    (hqs : parse_qs_get (strL "currentJobId") (urlparse url).query = []) :
    scrape_linkedin_job_description env url =
      (.error (.valueError (strL "Invalid LinkedIn URL format: Search URL provided, but 'currentJobId' parameter is missing.")),
        []) := by
  have hv : checkLinkedinUrl url =
      .invalid (strL "Invalid LinkedIn URL format: Search URL provided, but 'currentJobId' parameter is missing.") := by
    simp only [checkLinkedinUrl, hdom, hpath, hqs]
    simp
  simp [scrape_linkedin_job_description, hv]

/-- C6 (witness): the theorem applied to the concrete search URL
`https://www.linkedin.com/jobs/search/?keywords=engineer` and an oracle
whose browser would succeed if it were ever driven. -/
theorem c6_search_url_without_job_id_witness :
    scrape_linkedin_job_description
      ⟨true, strL "/usr/bin/chromedriver", .ok (), .ok (strL "text"), true⟩
      (strL "https://www.linkedin.com/jobs/search/?keywords=engineer") =
      (.error (.valueError (strL "Invalid LinkedIn URL format: Search URL provided, but 'currentJobId' parameter is missing.")),
        []) :=
  c6_search_url_without_job_id
    ⟨true, strL "/usr/bin/chromedriver", .ok (), .ok (strL "text"), true⟩
    (strL "https://www.linkedin.com/jobs/search/?keywords=engineer")
    (by decide) (by decide) (by decide)

/-- C9: on every exit path of the fetch on which a browser-driver session was
created, the last recorded session event is the driver's quit: success,
scrape failure and unexpected exception all tear the session down, and the
paths with no quit are exactly those that never created a session. -/
theorem c9_driver_always_quit (env : ScrapeEnv) (url : List Char)
    (h : ScrapeEvent.driverCreated ∈ (scrape_linkedin_job_description env url).2) :
    (scrape_linkedin_job_description env url).2.getLast? = some ScrapeEvent.driverQuit := by
  cases hv : checkLinkedinUrl url with
  | invalid m => simp [scrape_linkedin_job_description, hv] at h
  | ok target =>
    cases hc : env.chromedriverOk with
    | false => simp [scrape_linkedin_job_description, hv, hc] at h
    | true =>
      cases hd : env.driverCreate with
      | error m => simp [scrape_linkedin_job_description, hv, hc, hd] at h
      | ok u =>
        cases hb : env.body with
        | ok t => simp [scrape_linkedin_job_description, hv, hc, hd, hb, List.getLast?]
        | error f =>
          cases f with
          | elementErr m =>
            simp [scrape_linkedin_job_description, hv, hc, hd, hb, List.getLast?]
          | otherErr m =>
            simp [scrape_linkedin_job_description, hv, hc, hd, hb, List.getLast?]

/-- C9 (witness): the theorem applied to a fetch of a concrete `jobs/view`
URL whose session body fails with a timeout: the session was created, and
the trace still ends with the driver quit. -/
theorem c9_driver_always_quit_witness :
    (scrape_linkedin_job_description
      ⟨true, strL "/usr/bin/chromedriver", .ok (), .error (.elementErr (strL "timeout")), true⟩
      (strL "https://www.linkedin.com/jobs/view/456/")).2.getLast? =
      some ScrapeEvent.driverQuit :=
  c9_driver_always_quit
    ⟨true, strL "/usr/bin/chromedriver", .ok (), .error (.elementErr (strL "timeout")), true⟩
    (strL "https://www.linkedin.com/jobs/view/456/") (by decide)

end ResumeJD
